import Mathlib

/-!
Shallow embedding of `src/worker.py` (Swarzox/image-gen-worker): a
bootstrap controller that prepares the environment (Xvfb, mitmproxy CA),
launches the FastAPI backend `app_server.py` as a subprocess, polls its
health endpoint, and hands off to the Vast PyWorker router.

External effects (subprocess results, filesystem probes, the environment,
HTTP poll outcomes, the log file) are inputs gathered in a `World`
record; the controller is a pure function from a `World` to a trace of
events and a final outcome.
-/

namespace ImageGenWorker

/-- Outcome of a `subprocess.run` call: either it completes with a return
code, or it raises (timeout expired, missing binary, ...).  The code wraps
such calls in try/except blocks. -/
inductive CmdResult where
  | exit (returncode : Int)
  | raises
deriving DecidableEq

/-- Exception classes a single `urllib.request.urlopen` call can raise
(worker.py line 96): connection refused, timeout, DNS/name error, or
anything else.  The bare `except Exception` at line 100 treats them all
alike. -/
inductive PyError where
  | connRefused
  | timeout
  | dnsError
  | other (msg : String)
deriving DecidableEq

/-- Outcome of one health-poll attempt: the GET returned a response with
some HTTP status, or it raised an exception. -/
inductive PollOutcome where
  | response (status : Nat)
  | raised (e : PyError)
deriving DecidableEq

/-- Lines 95-101 of worker.py: a poll attempt sets `healthy = True` and
breaks out of the loop exactly when the GET returned and `req.status ==
200`; a non-200 response falls through to the sleep and any exception is
swallowed by `except Exception: pass`. -/
def attemptHealthy : PollOutcome → Bool
  | PollOutcome.response s => s == 200
  | PollOutcome.raised _ => false

/-- What the health-poll loop of lines 93-102 produced: the final value of
the `healthy` flag, how many poll attempts were issued, and how many times
`time.sleep(1)` ran. -/
structure PollResult where
  healthy : Bool
  attempts : Nat
  sleeps : Nat
deriving DecidableEq

/-- The `for i in range(60)` loop of lines 94-102, with the remaining
iteration count as fuel.  `probe i` is the outcome of the GET on iteration
`i`.  On success the loop breaks before the sleep; on failure it sleeps
and moves to the next iteration. -/
def pollLoop (probe : Nat → PollOutcome) : Nat → Nat → PollResult
  | _, 0 => ⟨false, 0, 0⟩
  | i, fuel + 1 =>
    if attemptHealthy (probe i) then ⟨true, 1, 0⟩
    else
      let r := pollLoop probe (i + 1) fuel
      ⟨r.healthy, r.attempts + 1, r.sleeps + 1⟩

/-- Bound of the poll loop: `range(60)` at line 94. -/
def MAX_HEALTH_ATTEMPTS : Nat := 60

/-- Fixed inter-poll sleep in seconds: `time.sleep(1)` at line 102. -/
def POLL_INTERVAL : Nat := 1

/-- The whole health gate: run the poll loop from iteration 0 with 60
iterations of fuel. -/
def healthGate (probe : Nat → PollOutcome) : PollResult :=
  pollLoop probe 0 MAX_HEALTH_ATTEMPTS

/-- Python `lines[-20:]` generalised: keep the last `n` lines, or all of
them when there are fewer than `n` (worker.py line 111). -/
def tailLines (n : Nat) (lines : List String) : List String :=
  lines.drop (lines.length - n)

/-- Candidate service directories, in order (worker.py line 56). -/
def SERVICE_CANDIDATES : List String := ["/root/service", "/workspace"]

/-- Entry-point file the candidates are probed for (line 57). -/
def APP_ENTRY : String := "app_server.py"

/-- `os.path.join` for the absolute-directory/file-name uses in worker.py. -/
def joinPath (dir file : String) : String := dir ++ "/" ++ file

/-- Lines 55-59: `SERVICE_DIR` is the first candidate directory containing
`app_server.py`, or `None` when neither does.  `ex` is `os.path.exists`. -/
def resolveServiceDir (ex : String → Bool) : Option String :=
  SERVICE_CANDIDATES.find? (fun c => ex (joinPath c APP_ENTRY))

/-- Lines 73-77: `SYSTEM_PYTHON` starts as `/usr/bin/python3`, falls back
to `/usr/local/bin/python3` when that does not exist, and finally to
`sys.executable` when neither exists. -/
def SYSTEM_PYTHON (ex : String → Bool) (sysExecutable : String) : String :=
  if ex "/usr/bin/python3" then "/usr/bin/python3"
  else if ex "/usr/local/bin/python3" then "/usr/local/bin/python3"
  else sysExecutable

/-- `os.environ.setdefault k v` (line 19): the environment afterwards maps
`k` to its old value when set, to `v` otherwise, and is unchanged
elsewhere. -/
def envSetdefault (env : String → Option String) (k v : String) :
    String → Option String :=
  fun q => if q = k then some ((env k).getD v) else env q

/-- Line 84: the backend child's environment is `{**os.environ,
"DISPLAY": ":99"}` — the controller's environment with `DISPLAY`
unconditionally set to `":99"`. -/
def childEnv (env : String → Option String) : String → Option String :=
  fun q => if q = "DISPLAY" then some ":99" else env q

/-- Request payload handed to a workload calculator.  Its structure is
never inspected by worker.py, whose calculators are constant. -/
abbrev Payload := String

/-- One `HandlerConfig` of the Vast PyWorker declaration (lines 129-146). -/
structure HandlerConfig where
  route : String
  allow_parallel_requests : Bool
  max_queue_time : ℚ
  workload_calculator : Payload → ℚ

/-- The `LogActionConfig` of lines 148-151. -/
structure LogActionConfig where
  on_load : List String
  on_error : List String

/-- The `WorkerConfig` of lines 124-152. -/
structure WorkerConfig where
  model_server_url : String
  model_server_port : Nat
  model_log_file : String
  handlers : List HandlerConfig
  log_action_config : LogActionConfig

/-- The `/generate` handler (lines 129-134). -/
def generateHandler : HandlerConfig :=
  ⟨"/generate", true, 180, fun _ => 100⟩

/-- The `/status` handler (lines 135-140). -/
def statusHandler : HandlerConfig :=
  ⟨"/status", true, 5, fun _ => 1⟩

/-- The `/health` handler (lines 141-146). -/
def healthHandler : HandlerConfig :=
  ⟨"/health", true, 5, fun _ => 1⟩

/-- The full configuration handed to `Worker(config).run()` (lines
124-152). -/
def workerConfig : WorkerConfig :=
  ⟨"http://127.0.0.1", 8080, "/var/log/image-gen/server.log",
   [generateHandler, statusHandler, healthHandler],
   ⟨["Uvicorn running on", "Application startup complete"],
    ["ERROR", "Traceback"]⟩⟩

/-- Observable step the controller takes, recorded in order. -/
inductive Event where
  | xvfbCheckAttempt
  | xvfbStart
  | caInstallAttempt
  | resolveServiceDirStep
  | launchBackend (dir : String) (python : String)
  | printLines (ls : List String)
deriving DecidableEq

/-- Everything external the controller reads or triggers during one run:
subprocess results, `os.path.exists`, the inherited environment,
`sys.executable`, the poll outcomes, and whether/what the diagnostic log
read returns (`none` models the read or flush raising). -/
structure World where
  pgrep : CmdResult
  xvfbPopenRaises : Bool
  caCertExists : Bool
  certutilRun : CmdResult
  fileExists : String → Bool
  environ : String → Option String
  sysExecutable : String
  probe : Nat → PollOutcome
  logRead : Option (List String)

/-- Final outcome of a controller run: `sys.exit code`, or the handoff to
`Worker(config).run()` with the resolved service directory, interpreter
and child environment (the router's loop never returns). -/
inductive ControllerResult where
  | exited (code : Nat)
  | handoff (serviceDir : String) (python : String)
      (env : String → Option String) (config : WorkerConfig)

/-- Lines 21-34: check for a running Xvfb with `pgrep -x Xvfb`; when the
check reports none running, `Popen` an Xvfb.  The whole block is inside
`try ... except Exception`, so a raise from either call only prints a
warning. -/
def prepareXvfb (w : World) : List Event :=
  Event.xvfbCheckAttempt ::
    match w.pgrep with
    | CmdResult.raises => []
    | CmdResult.exit rc =>
      if rc ≠ 0 then
        if w.xvfbPopenRaises then [] else [Event.xvfbStart]
      else []

/-- Lines 39-49: when the mitmproxy CA certificate file exists, run
`certutil` once inside `try ... except Exception: pass`; its outcome is
ignored. -/
def prepareCA (w : World) : List Event :=
  if w.caCertExists then [Event.caInstallAttempt] else []

/-- The whole controller run of worker.py as a pure function of the
external world: environment preparation (lines 19-49), service-directory
and interpreter resolution plus backend launch (lines 55-85), the health
gate (lines 93-102), the failure diagnostics and exit (lines 104-115), and
the handoff (lines 122-154). -/
def runController (w : World) : List Event × ControllerResult :=
  let controllerEnv := envSetdefault w.environ "DISPLAY" ":99"
  let prepEvents := prepareXvfb w ++ prepareCA w
  let events := prepEvents ++ [Event.resolveServiceDirStep]
  match resolveServiceDir w.fileExists with
  | none => (events, ControllerResult.exited 1)
  | some sd =>
    let py := SYSTEM_PYTHON w.fileExists w.sysExecutable
    let events := events ++ [Event.launchBackend sd py]
    let pr := healthGate w.probe
    if pr.healthy then
      (events, ControllerResult.handoff sd py (childEnv controllerEnv) workerConfig)
    else
      match w.logRead with
      | some lines =>
        (events ++ [Event.printLines (tailLines 20 lines)], ControllerResult.exited 1)
      | none => (events, ControllerResult.exited 1)

/-- Projection used to state facts about the child environment of a run
that reached the handoff. -/
def handoffDisplay : ControllerResult → Option (Option String)
  | ControllerResult.handoff _ _ env _ => some (env "DISPLAY")
  | _ => none

/-- Is this event the backend launch? -/
def isLaunch : Event → Bool
  | Event.launchBackend _ _ => true
  | _ => false

/-- Is this event one of the Environment Preparer's steps? -/
def isPrepEvent : Event → Bool
  | Event.xvfbCheckAttempt => true
  | Event.xvfbStart => true
  | Event.caInstallAttempt => true
  | _ => false

/-- When every poll attempt fails, the loop consumes all its fuel, making
one attempt and one sleep per iteration. -/
theorem pollLoop_never (probe : Nat → PollOutcome)
    (h : ∀ j, attemptHealthy (probe j) = false) :
    ∀ fuel i, pollLoop probe i fuel = ⟨false, fuel, fuel⟩ := by
  intro fuel
  induction fuel with
  | zero => intro i; rfl
  | succ f ih => intro i; simp [pollLoop, h i, ih (i + 1)]

/-- When the first success is on iteration `i + n` (the `n` iterations
before it all failing) and there is fuel to reach it, the loop stops right
there: `n + 1` attempts, `n` sleeps, healthy. -/
theorem pollLoop_first_success (probe : Nat → PollOutcome) :
    ∀ n fuel i, n < fuel →
      (∀ j, j < n → attemptHealthy (probe (i + j)) = false) →
      attemptHealthy (probe (i + n)) = true →
      pollLoop probe i fuel = ⟨true, n + 1, n⟩ := by
  intro n
  induction n with
  | zero =>
    intro fuel i hlt _ hsucc
    match fuel, hlt with
    | f + 1, _ =>
      have h0 : attemptHealthy (probe i) = true := by simpa using hsucc
      simp [pollLoop, h0]
  | succ m ih =>
    intro fuel i hlt hfail hsucc
    match fuel, hlt with
    | f + 1, hlt =>
      have h0 : attemptHealthy (probe i) = false := by
        simpa using hfail 0 (Nat.succ_pos m)
      have hr : pollLoop probe (i + 1) f = ⟨true, m + 1, m⟩ := by
        apply ih f (i + 1) (by omega)
        · intro j hj
          have he : i + 1 + j = i + (j + 1) := by omega
          rw [he]
          exact hfail (j + 1) (by omega)
        · have he : i + 1 + m = i + (m + 1) := by omega
          rw [he]
          exact hsucc
      simp [pollLoop, h0, hr]

/-- The poll loop reads an outcome only through `attemptHealthy`. -/
theorem pollLoop_congr (probe1 probe2 : Nat → PollOutcome)
    (h : ∀ i, attemptHealthy (probe1 i) = attemptHealthy (probe2 i)) :
    ∀ fuel i, pollLoop probe1 i fuel = pollLoop probe2 i fuel := by
  intro fuel
  induction fuel with
  | zero => intro i; rfl
  | succ f ih => intro i; simp [pollLoop, h i, ih (i + 1)]

/-- Trace of any run: the Preparer's events, then the service-directory
resolution step, then events none of which belong to the Preparer. -/
theorem runController_trace (w : World) :
    ∃ rest, (runController w).1 =
      prepareXvfb w ++ prepareCA w ++ Event.resolveServiceDirStep :: rest ∧
      ∀ e ∈ rest, isPrepEvent e = false := by
  unfold runController
  cases hsd : resolveServiceDir w.fileExists with
  | none => exact ⟨[], by simp⟩
  | some sd =>
    cases hh : (healthGate w.probe).healthy with
    | true =>
      refine ⟨[Event.launchBackend sd (SYSTEM_PYTHON w.fileExists w.sysExecutable)], ?_⟩
      simp [hh, isPrepEvent]
    | false =>
      cases hlr : w.logRead with
      | none =>
        refine ⟨[Event.launchBackend sd (SYSTEM_PYTHON w.fileExists w.sysExecutable)], ?_⟩
        simp [hh, hlr, isPrepEvent]
      | some lines =>
        refine ⟨[Event.launchBackend sd (SYSTEM_PYTHON w.fileExists w.sysExecutable),
                 Event.printLines (tailLines 20 lines)], ?_⟩
        simp [hh, hlr, isPrepEvent]

/-- C1: for every N with 1 ≤ N ≤ 60 (here N = n + 1, so n < 60), if the
health endpoint first returns HTTP 200 on the Nth poll, the health gate
makes exactly N poll attempts, ends healthy (READY) with no further ticks,
and runs the fixed 1-second inter-poll sleep exactly N − 1 times, so the
total sleep time is (N − 1) × POLL_INTERVAL. -/
theorem healthGate_ready_on_first_success (probe : Nat → PollOutcome) (n : Nat)
    (hn : n < MAX_HEALTH_ATTEMPTS)
    (hfail : ∀ j, j < n → attemptHealthy (probe j) = false)
    (hsucc : attemptHealthy (probe n) = true) :
    healthGate probe = ⟨true, n + 1, n⟩ ∧
    (healthGate probe).sleeps * POLL_INTERVAL = (n + 1) - 1 := by
  have h : healthGate probe = ⟨true, n + 1, n⟩ := by
    apply pollLoop_first_success probe n MAX_HEALTH_ATTEMPTS 0 hn
    · simpa using hfail
    · simpa using hsucc
  exact ⟨h, by simp [h, POLL_INTERVAL]⟩

/-- Probe that fails twice (connection refused) and then returns 200: the
spec's scenario of success on the third attempt. -/
def probeThird : Nat → PollOutcome :=
  fun i => if i < 2 then PollOutcome.raised PyError.connRefused
           else PollOutcome.response 200

/-- Witness for C1 at N = 3: three attempts, two sleeps. -/
theorem healthGate_ready_on_first_success_witness :
    healthGate probeThird = ⟨true, 3, 2⟩ ∧
    (healthGate probeThird).sleeps * POLL_INTERVAL = 2 :=
  healthGate_ready_on_first_success probeThird 2 (by decide) (by decide) (by decide)

/-- C2: when the backend was launched (a service directory resolved) and
no poll ever succeeds, the health gate makes exactly 60 attempts and ends
unhealthy, the controller exits with code 1, and when the diagnostic read
of the log sink succeeds it prints exactly the trailing
`min 20 (length of log)` lines — the last 20, or all of them when the log
is shorter. -/
theorem healthGate_timeout_diagnostics (w : World) (sd : String)
    (hsd : resolveServiceDir w.fileExists = some sd)
    (hfail : ∀ j, attemptHealthy (w.probe j) = false) :
    healthGate w.probe = ⟨false, MAX_HEALTH_ATTEMPTS, MAX_HEALTH_ATTEMPTS⟩ ∧
    (runController w).2 = ControllerResult.exited 1 ∧
    ∀ lines, w.logRead = some lines →
      Event.printLines (tailLines 20 lines) ∈ (runController w).1 ∧
      (tailLines 20 lines).length = min 20 lines.length ∧
      (tailLines 20 lines).IsSuffix lines := by
  have hg : healthGate w.probe = ⟨false, MAX_HEALTH_ATTEMPTS, MAX_HEALTH_ATTEMPTS⟩ :=
    pollLoop_never w.probe hfail MAX_HEALTH_ATTEMPTS 0
  refine ⟨hg, ?_, ?_⟩
  · unfold runController
    rw [hsd]
    simp only [hg]
    cases w.logRead <;> simp
  · intro lines hlines
    refine ⟨?_, ?_, ?_⟩
    · unfold runController
      rw [hsd]
      simp only [hg, hlines]
      simp
    · simp [tailLines]
      omega
    · exact List.drop_suffix _ _

/-- World whose backend never becomes healthy: the entry point is at
`/root/service`, every poll times out, and the log sink read yields three
lines. -/
def timeoutWorld : World :=
  ⟨CmdResult.exit 0, false, false, CmdResult.exit 0,
   fun p => p == "/root/service/app_server.py",
   fun _ => none, "/venv/bin/python3",
   fun _ => PollOutcome.raised PyError.timeout,
   some ["a", "b", "c"]⟩

/-- Witness for C2 on `timeoutWorld`: 60 attempts, exit code 1, and the
diagnostic print shows all 3 lines of the 3-line log. -/
theorem healthGate_timeout_diagnostics_witness :
    healthGate timeoutWorld.probe = ⟨false, 60, 60⟩ ∧
    (runController timeoutWorld).2 = ControllerResult.exited 1 ∧
    Event.printLines (tailLines 20 ["a", "b", "c"]) ∈ (runController timeoutWorld).1 ∧
    (tailLines 20 ["a", "b", "c"]).length = min 20 3 := by
  have h := healthGate_timeout_diagnostics timeoutWorld "/root/service"
    (by decide) (fun j => rfl)
  have h3 := h.2.2 ["a", "b", "c"] rfl
  exact ⟨h.1, h.2.1, h3.1, h3.2.1⟩

/-- Neither Preparer step ever emits the backend-launch event. -/
theorem prep_no_launch (w : World) (d p : String) :
    Event.launchBackend d p ∉ prepareXvfb w ++ prepareCA w := by
  unfold prepareXvfb prepareCA
  cases w.pgrep with
  | raises => cases w.caCertExists <;> simp
  | exit rc =>
    cases w.caCertExists <;> cases w.xvfbPopenRaises <;>
      by_cases hrc : rc = 0 <;> simp [hrc]

/-- C3: when neither `/root/service` nor `/workspace` contains
`app_server.py`, the controller exits with code 1 and its trace holds no
backend-launch event — the Supervisor's launch step is never invoked. -/
theorem missing_entry_exits_before_launch (w : World)
    (h1 : w.fileExists "/root/service/app_server.py" = false)
    (h2 : w.fileExists "/workspace/app_server.py" = false) :
    (runController w).2 = ControllerResult.exited 1 ∧
    ∀ d p, Event.launchBackend d p ∉ (runController w).1 := by
  have hsd : resolveServiceDir w.fileExists = none := by
    unfold resolveServiceDir SERVICE_CANDIDATES
    have e1 : joinPath "/root/service" APP_ENTRY = "/root/service/app_server.py" := rfl
    have e2 : joinPath "/workspace" APP_ENTRY = "/workspace/app_server.py" := rfl
    simp [List.find?, e1, e2, h1, h2]
  constructor
  · unfold runController
    rw [hsd]
  · intro d p
    unfold runController
    rw [hsd]
    simp only []
    intro hmem
    rcases List.mem_append.mp hmem with hpre | hres
    · exact prep_no_launch w d p hpre
    · simp at hres

/-- World with no entry point anywhere and the Xvfb check raising. -/
def noEntryWorld : World :=
  ⟨CmdResult.raises, false, true, CmdResult.raises,
   fun _ => false, fun _ => none, "/venv/bin/python3",
   fun _ => PollOutcome.raised PyError.dnsError, none⟩

/-- Witness for C3 on `noEntryWorld`. -/
theorem missing_entry_exits_before_launch_witness :
    (runController noEntryWorld).2 = ControllerResult.exited 1 ∧
    Event.launchBackend "/root/service" "/venv/bin/python3" ∉
      (runController noEntryWorld).1 := by
  have h := missing_entry_exits_before_launch noEntryWorld rfl rfl
  exact ⟨h.1, h.2 "/root/service" "/venv/bin/python3"⟩

/-- C4: a single poll attempt succeeds exactly when the GET returned HTTP
200; every other outcome — a response with any other status, connection
refused, timeout, DNS error, or any other exception — is the same
"not yet ready" result, and the health gate's behaviour depends on the
outcomes only through that single success test, so no failure class is
handled differently or terminates the loop early. -/
theorem poll_outcomes_uniform :
    (∀ o : PollOutcome, attemptHealthy o = true ↔ o = PollOutcome.response 200) ∧
    (∀ s : Nat, s ≠ 200 →
      attemptHealthy (PollOutcome.response s) = attemptHealthy (PollOutcome.raised PyError.timeout) ∧
      attemptHealthy (PollOutcome.response s) = attemptHealthy (PollOutcome.raised PyError.connRefused) ∧
      attemptHealthy (PollOutcome.response s) = attemptHealthy (PollOutcome.raised PyError.dnsError)) ∧
    (∀ probe1 probe2 : Nat → PollOutcome,
      (∀ i, attemptHealthy (probe1 i) = attemptHealthy (probe2 i)) →
      healthGate probe1 = healthGate probe2) := by
  refine ⟨?_, ?_, ?_⟩
  · intro o
    cases o with
    | response s => simp [attemptHealthy]
    | raised e => simp [attemptHealthy]
  · intro s hs
    simp [attemptHealthy, hs]
  · intro probe1 probe2 h
    exact pollLoop_congr probe1 probe2 h MAX_HEALTH_ATTEMPTS 0

/-- Witness for C4: 200 succeeds, and swapping one failure class for
another leaves the health gate's result unchanged. -/
theorem poll_outcomes_uniform_witness :
    attemptHealthy (PollOutcome.response 200) = true ∧
    attemptHealthy (PollOutcome.response 503) = attemptHealthy (PollOutcome.raised PyError.timeout) ∧
    healthGate (fun _ => PollOutcome.raised PyError.connRefused) =
      healthGate (fun _ => PollOutcome.response 503) :=
  ⟨(poll_outcomes_uniform.1 (PollOutcome.response 200)).mpr rfl,
   (poll_outcomes_uniform.2.1 503 (by decide)).1,
   poll_outcomes_uniform.2.2 _ _ (fun i => rfl)⟩

/-- C5: whatever the outcomes of the precondition checks and remedies —
Xvfb running or not, the pgrep check or the Xvfb start raising or not, the
CA certificate present or not, certutil succeeding or raising — the
Preparer never terminates the controller: every run's trace reaches the
service-directory resolution step of the Supervisor phase, and each
precondition is attempted at most once (the Xvfb check exactly once, the
CA install at most once). -/
theorem preparer_never_fatal (w : World) :
    Event.resolveServiceDirStep ∈ (runController w).1 ∧
    ((runController w).1.count Event.xvfbCheckAttempt) = 1 ∧
    ((runController w).1.count Event.caInstallAttempt) ≤ 1 := by
  obtain ⟨rest, htr, hrest⟩ := runController_trace w
  have hxv : (prepareXvfb w).count Event.xvfbCheckAttempt = 1 := by
    unfold prepareXvfb
    cases w.pgrep with
    | raises => simp
    | exit rc =>
      by_cases hrc : rc = 0 <;> cases w.xvfbPopenRaises <;>
        simp [hrc, List.count_cons]
  have hxv2 : (prepareCA w).count Event.xvfbCheckAttempt = 0 := by
    unfold prepareCA
    cases w.caCertExists <;> simp
  have hca : (prepareXvfb w).count Event.caInstallAttempt = 0 := by
    unfold prepareXvfb
    cases w.pgrep with
    | raises => simp
    | exit rc =>
      by_cases hrc : rc = 0 <;> cases w.xvfbPopenRaises <;>
        simp [hrc, List.count_cons]
  have hca2 : (prepareCA w).count Event.caInstallAttempt ≤ 1 := by
    unfold prepareCA
    cases w.caCertExists <;> simp
  have hrest_xv : rest.count Event.xvfbCheckAttempt = 0 := by
    rw [List.count_eq_zero]
    intro hmem
    have := hrest _ hmem
    simp [isPrepEvent] at this
  have hrest_ca : rest.count Event.caInstallAttempt = 0 := by
    rw [List.count_eq_zero]
    intro hmem
    have := hrest _ hmem
    simp [isPrepEvent] at this
  refine ⟨?_, ?_, ?_⟩
  · rw [htr]; simp
  · rw [htr]
    simp [List.count_append, List.count_cons, hxv, hxv2, hrest_xv]
  · rw [htr]
    simp [List.count_append, List.count_cons, hca, hca2, hrest_ca]

/-- C6: the service directory is the first of `/root/service`,
`/workspace` (in that order) that contains `app_server.py`; the
interpreter is `/usr/bin/python3` when it exists, else
`/usr/local/bin/python3` when that exists, else the controller's own
`sys.executable`; and whenever a service directory resolves, the backend
is launched with exactly that directory as working directory and that
interpreter. -/
theorem supervisor_resolution (w : World) :
    (w.fileExists "/root/service/app_server.py" = true →
      resolveServiceDir w.fileExists = some "/root/service") ∧
    (w.fileExists "/root/service/app_server.py" = false →
      w.fileExists "/workspace/app_server.py" = true →
      resolveServiceDir w.fileExists = some "/workspace") ∧
    (w.fileExists "/usr/bin/python3" = true →
      SYSTEM_PYTHON w.fileExists w.sysExecutable = "/usr/bin/python3") ∧
    (w.fileExists "/usr/bin/python3" = false →
      w.fileExists "/usr/local/bin/python3" = true →
      SYSTEM_PYTHON w.fileExists w.sysExecutable = "/usr/local/bin/python3") ∧
    (w.fileExists "/usr/bin/python3" = false →
      w.fileExists "/usr/local/bin/python3" = false →
      SYSTEM_PYTHON w.fileExists w.sysExecutable = w.sysExecutable) ∧
    (∀ sd, resolveServiceDir w.fileExists = some sd →
      Event.launchBackend sd (SYSTEM_PYTHON w.fileExists w.sysExecutable) ∈
        (runController w).1) := by
  have e1 : joinPath "/root/service" APP_ENTRY = "/root/service/app_server.py" := rfl
  have e2 : joinPath "/workspace" APP_ENTRY = "/workspace/app_server.py" := rfl
  refine ⟨?_, ?_, ?_, ?_, ?_, ?_⟩
  · intro h1
    unfold resolveServiceDir SERVICE_CANDIDATES
    simp [List.find?, e1, h1]
  · intro h1 h2
    unfold resolveServiceDir SERVICE_CANDIDATES
    simp [List.find?, e1, e2, h1, h2]
  · intro h1
    unfold SYSTEM_PYTHON
    simp [h1]
  · intro h1 h2
    unfold SYSTEM_PYTHON
    simp [h1, h2]
  · intro h1 h2
    unfold SYSTEM_PYTHON
    simp [h1, h2]
  · intro sd hsd
    unfold runController
    rw [hsd]
    cases hh : (healthGate w.probe).healthy with
    | true => simp [hh]
    | false => cases hlr : w.logRead <;> simp [hh, hlr]

/-- World of the spec's scenario: the entry point only at the second
candidate `/workspace`, no system python (fallback interpreter), health
succeeding on the third attempt. -/
def scenarioWorld : World :=
  ⟨CmdResult.exit 0, false, false, CmdResult.exit 0,
   fun p => p == "/workspace/app_server.py",
   fun _ => none, "/venv/bin/python3", probeThird, none⟩

/-- Witness for C6 on `scenarioWorld`: second directory wins, fallback
interpreter chosen, and the launch event records both. -/
theorem supervisor_resolution_witness :
    resolveServiceDir scenarioWorld.fileExists = some "/workspace" ∧
    SYSTEM_PYTHON scenarioWorld.fileExists scenarioWorld.sysExecutable =
      "/venv/bin/python3" ∧
    Event.launchBackend "/workspace" "/venv/bin/python3" ∈
      (runController scenarioWorld).1 := by
  have h := supervisor_resolution scenarioWorld
  have hsd : resolveServiceDir scenarioWorld.fileExists = some "/workspace" :=
    h.2.1 rfl rfl
  have hpy : SYSTEM_PYTHON scenarioWorld.fileExists scenarioWorld.sysExecutable =
      "/venv/bin/python3" := h.2.2.2.2.1 rfl rfl
  refine ⟨hsd, hpy, ?_⟩
  have hmem := h.2.2.2.2.2 "/workspace" hsd
  rwa [hpy] at hmem

/-- C7: the configuration handed to the router holds exactly three
handlers with pairwise distinct routes `/generate`, `/status`, `/health`,
and every auxiliary handler's max queue wait is 5.0, strictly smaller than
the primary `/generate` handler's 180.0. -/
theorem worker_config_routes :
    workerConfig.handlers.map HandlerConfig.route = ["/generate", "/status", "/health"] ∧
    (workerConfig.handlers.map HandlerConfig.route).Nodup ∧
    workerConfig.handlers.length = 3 ∧
    generateHandler.max_queue_time = 180 ∧
    ∀ h ∈ workerConfig.handlers, h.route ≠ "/generate" →
      h.max_queue_time = 5 ∧ h.max_queue_time < generateHandler.max_queue_time := by
  refine ⟨rfl, by decide, rfl, rfl, ?_⟩
  intro h hmem hne
  have : h = generateHandler ∨ h = statusHandler ∨ h = healthHandler := by
    simpa [workerConfig] using hmem
  rcases this with h1 | h2 | h3
  · exact absurd (by rw [h1]; rfl) hne
  · subst h2
    exact ⟨rfl, by norm_num [statusHandler, generateHandler]⟩
  · subst h3
    exact ⟨rfl, by norm_num [healthHandler, generateHandler]⟩

/-- Witness for C7 at the `/status` handler. -/
theorem worker_config_routes_witness :
    statusHandler.max_queue_time = 5 ∧
    statusHandler.max_queue_time < generateHandler.max_queue_time :=
  worker_config_routes.2.2.2.2 statusHandler (by simp [workerConfig]) (by decide)

/-- C8 counterexample: with `DISPLAY` pre-set to `":1"` in the inherited
environment, the controller's environment still holds `":1"` after the
`setdefault`, yet the child launched at the handoff receives
`DISPLAY=":99"` — the pre-set value is replaced, not passed through. -/
def displayPresetWorld : World :=
  ⟨CmdResult.exit 0, false, false, CmdResult.exit 0,
   fun p => p == "/root/service/app_server.py",
   fun q => if q = "DISPLAY" then some ":1" else none,
   "/venv/bin/python3", fun _ => PollOutcome.response 200, none⟩

/-- C8 as written is false: in `displayPresetWorld` the controller's
`DISPLAY` is `":1"` (pre-set, and `setdefault` keeps it), but the child
environment at the handoff carries `DISPLAY = ":99"`. -/
theorem child_display_not_passed_through :
    displayPresetWorld.environ "DISPLAY" = some ":1" ∧
    envSetdefault displayPresetWorld.environ "DISPLAY" ":99" "DISPLAY" = some ":1" ∧
    handoffDisplay (runController displayPresetWorld).2 = some (some ":99") ∧
    (some ":99" : Option String) ≠ some ":1" := by
  refine ⟨rfl, rfl, ?_, by decide⟩
  rfl

/-- C8 amended: the child environment at the handoff equals the
controller's inherited environment at every variable except `DISPLAY`,
which is always `":99"` in the child regardless of any pre-set value. -/
theorem child_env_override (w : World) (sd py : String)
    (env : String → Option String) (cfg : WorkerConfig)
    (hh : (runController w).2 = ControllerResult.handoff sd py env cfg) :
    env "DISPLAY" = some ":99" ∧ ∀ k, k ≠ "DISPLAY" → env k = w.environ k := by
  unfold runController at hh
  cases hsd : resolveServiceDir w.fileExists with
  | none => rw [hsd] at hh; simp at hh
  | some sd0 =>
    rw [hsd] at hh
    cases hg : (healthGate w.probe).healthy with
    | false =>
      cases hlr : w.logRead <;> rw [hlr] at hh <;> simp [hg] at hh
    | true =>
      simp only [hg, if_true] at hh
      rw [ControllerResult.handoff.injEq] at hh
      obtain ⟨-, -, henv, -⟩ := hh
      subst henv
      constructor
      · simp [childEnv]
      · intro k hk
        simp [childEnv, envSetdefault, hk]

/-- Witness for C8 amended on `displayPresetWorld`: the handoff is
reached, the child sees `DISPLAY = ":99"`, and an unrelated variable is
unchanged. -/
theorem child_env_override_witness :
    childEnv (envSetdefault displayPresetWorld.environ "DISPLAY" ":99") "DISPLAY" =
      some ":99" ∧
    childEnv (envSetdefault displayPresetWorld.environ "DISPLAY" ":99") "PATH" =
      displayPresetWorld.environ "PATH" := by
  have h := child_env_override displayPresetWorld "/root/service" "/venv/bin/python3"
    (childEnv (envSetdefault displayPresetWorld.environ "DISPLAY" ":99"))
    workerConfig rfl
  exact ⟨h.1, h.2 "PATH" (by decide)⟩

/-- C9: every handler's workload calculator is a constant, non-negative
function of the payload — the same weight on any two payloads, 100.0 for
`/generate` and 1.0 for `/status` and `/health` — so the computed weight
never depends on the request payload. -/
theorem workload_calculators_constant (h : HandlerConfig)
    (hmem : h ∈ workerConfig.handlers) (p1 p2 : Payload) :
    h.workload_calculator p1 = h.workload_calculator p2 ∧
    0 ≤ h.workload_calculator p1 ∧
    (h.route = "/generate" → h.workload_calculator p1 = 100) ∧
    (h.route = "/status" ∨ h.route = "/health" → h.workload_calculator p1 = 1) := by
  have : h = generateHandler ∨ h = statusHandler ∨ h = healthHandler := by
    simpa [workerConfig] using hmem
  rcases this with h1 | h2 | h3 <;> subst_vars
  · exact ⟨rfl, by norm_num [generateHandler], fun _ => rfl, by intro hr; simp [generateHandler] at hr⟩
  · exact ⟨rfl, by norm_num [statusHandler], by intro hr; simp [statusHandler] at hr, fun _ => rfl⟩
  · exact ⟨rfl, by norm_num [healthHandler], by intro hr; simp [healthHandler] at hr, fun _ => rfl⟩

/-- Witness for C9 at the `/generate` handler on two different payloads. -/
theorem workload_calculators_constant_witness :
    generateHandler.workload_calculator "small request" =
      generateHandler.workload_calculator "huge request" ∧
    0 ≤ generateHandler.workload_calculator "small request" ∧
    generateHandler.workload_calculator "small request" = 100 := by
  have h := workload_calculators_constant generateHandler
    (by simp [workerConfig]) "small request" "huge request"
  exact ⟨h.1, h.2.1, h.2.2.1 rfl⟩

/-- C10: whenever the health gate ends unhealthy, the controller's result
is exit code 1, and the result is the same whatever the diagnostic log
read yields — including when flushing/reopening/reading raises (`logRead
= none`): the swallowed diagnostic failure can neither change the exit
code nor prevent termination. -/
theorem exit_one_regardless_of_diagnostics (w : World)
    (hg : (healthGate w.probe).healthy = false) :
    (runController w).2 = ControllerResult.exited 1 ∧
    ∀ lr1 lr2 : Option (List String),
      (runController { w with logRead := lr1 }).2 =
        (runController { w with logRead := lr2 }).2 := by
  have key : ∀ lr : Option (List String),
      (runController { w with logRead := lr }).2 = ControllerResult.exited 1 := by
    intro lr
    unfold runController
    cases hsd : resolveServiceDir w.fileExists with
    | none => simp [hsd]
    | some sd => cases lr <;> simp [hsd, hg]
  have hw : (runController w).2 = ControllerResult.exited 1 := by
    have := key w.logRead
    simpa using this
  exact ⟨hw, fun lr1 lr2 => by rw [key lr1, key lr2]⟩

/-- Witness for C10 on `timeoutWorld` (never healthy): exit code 1, and
the result with a raising log read equals the result with a readable
log. -/
theorem exit_one_regardless_of_diagnostics_witness :
    (runController timeoutWorld).2 = ControllerResult.exited 1 ∧
    (runController { timeoutWorld with logRead := none }).2 =
      (runController { timeoutWorld with logRead := some ["a", "b", "c"] }).2 := by
  have h := exit_one_regardless_of_diagnostics timeoutWorld (by decide)
  exact ⟨h.1, h.2 none (some ["a", "b", "c"])⟩

end ImageGenWorker
